import Mathlib

/-
Verification of the session-token acquisition and normalization core of
`src/xiaomi/auth.py` (class `XiaomiAuth`), shallowly embedded in Lean.

Python values that may be `None` are modelled as `Option`; Python string
truthiness (`if x`, `x or y`) is modelled explicitly: a string is truthy
iff it is non-empty, an optional string is truthy iff it is `some s` with
`s` non-empty.  The Python dict returned by the code is modelled as an
association list built in the same literal order.
-/

/-- Lookup of a key in a string-keyed mapping, as Python `dict.get(k)`:
`some v` when the key is present with value `v`, `none` otherwise. -/
def dictGet (m : List (String × String)) (k : String) : Option String :=
  match m.find? (fun p => p.1 == k) with
  | some p => some p.2
  | none => none

/-- Python truthiness of an optional string: `None` and `""` are falsy. -/
def optTruthy : Option String → Bool
  | none => false
  | some s => s ≠ ""

/-- Python `a or b` on two optional strings: yields `a` when `a` is truthy,
else `b` unchanged. -/
def pyOrStr (a b : Option String) : Option String :=
  if optTruthy a then a else b

/-- Python `x if x else ""` on an optional string: the string when truthy,
the empty string when `None` or `""`. -/
def strOrEmpty (x : Option String) : String :=
  if optTruthy x then x.getD "" else ""

/-- Python `str(user_id) if user_id else ""` where `user_id` is an optional
integer: `0` and `None` are falsy. -/
def pyStrOfUserId : Option Int → String
  | none => ""
  | some n => if n = 0 then "" else toString n

/-- The provider-session snapshot the login code reads off the `MiCloud`
object after a successful `mc.login()`: `mc.user_id`, `mc.service_token`,
`mc.ssecurity`, and the cookie dict `mc.session.cookies.get_dict()` when
`hasattr` finds a truthy `mc.session` (`none` otherwise). -/
structure MiSession where
  user_id : Option Int
  service_token : Option String
  ssecurity : Option String
  cookies : Option (List (String × String))
deriving Repr, DecidableEq

/-- The `pass_token` local of `XiaomiAuth.login` just before normalization:
`pass_token = None`; if a cookie mapping is exposed,
`pass_token` is set to the cookie `passToken` entry or-else the cookie
`serviceToken` entry;
then `if not pass_token: pass_token = service_token`. -/
def derivePassToken (s : MiSession) : Option String :=
  let fromCookies : Option String :=
    match s.cookies with
    | some m => pyOrStr (dictGet m "passToken") (dictGet m "serviceToken")
    | none => none
  if optTruthy fromCookies then fromCookies else s.service_token

/-- The `token_data` dict built by `XiaomiAuth.login`, in source order. -/
def loginTokenData (s : MiSession) : List (String × String) :=
  [("userId", pyStrOfUserId s.user_id),
   ("passToken", strOrEmpty (derivePassToken s)),
   ("ssecurity", strOrEmpty s.ssecurity),
   ("serviceToken", strOrEmpty s.service_token)]

/-- Outcome of the external provider call `mc.login()`: it raises a fault,
returns a falsy result, or succeeds and leaves the session fields of
`MiSession` readable on the `MiCloud` object. -/
inductive LoginOutcome where
  | fault (msg : String)
  | noResult
  | success (s : MiSession)
deriving Repr, DecidableEq

/-- The `XiaomiAuth` instance state: credentials, region, and the `mc`
field (`None` until a login attempt constructs a `MiCloud`). -/
structure XiaomiAuth where
  username : String
  password : String
  region : String
  mc : Option Unit
deriving Repr, DecidableEq

/-- `XiaomiAuth.__init__`: stores the credentials and region (default
region "cn" at the call sites that omit it) and sets `mc = None`. -/
def XiaomiAuth.init (username password region : String) : XiaomiAuth :=
  { username := username, password := password, region := region, mc := none }

/-- `XiaomiAuth.login`: constructs the `MiCloud` object (setting `self.mc`
before the handshake), then calls `mc.login()`.  A raised fault is logged
and re-raised unchanged; a falsy result raises
`Exception("Login failed - no result returned")` (also re-raised by the
outer handler); a truthy result yields the normalized `token_data` dict.
Returns the updated instance state together with the outcome. -/
def XiaomiAuth.login (a : XiaomiAuth) (outcome : LoginOutcome) :
    XiaomiAuth × Except String (List (String × String)) :=
  let a₂ := { a with mc := some () }
  match outcome with
  | .fault msg => (a₂, .error msg)
  | .noResult => (a₂, .error "Login failed - no result returned")
  | .success s => (a₂, .ok (loginTokenData s))

/-- Devices are opaque records; their identity is all the core inspects. -/
def Device := String
deriving Repr, DecidableEq

/-- Outcome of the external provider call `mc.get_devices(country=c)`:
either it raises a fault, or it returns a possibly-`None` device list. -/
inductive DevicesOutcome where
  | fault (msg : String)
  | ok (devices : Option (List Device))

/-- The line `country = country or self.region` of `get_devices`: an
absent or empty-string argument falls back to the stored region. -/
def resolveCountry (country : Option String) (region : String) : String :=
  match country with
  | some s => if s ≠ "" then s else region
  | none => region

/-- `XiaomiAuth.get_devices`: raises `"Not logged in - call login() first"`
when `not self.mc`; otherwise resolves `country = country or self.region`
and calls the provider, returning `devices or []` on success and `[]`
(swallowing the exception) on a fault. -/
def XiaomiAuth.get_devices (a : XiaomiAuth) (country : Option String)
    (provider : String → DevicesOutcome) : Except String (List Device) :=
  match a.mc with
  | none => .error "Not logged in - call login() first"
  | some _ =>
    match provider (resolveCountry country a.region) with
    | .fault _ => .ok []
    | .ok none => .ok []
    | .ok (some ds) => .ok (if ds = [] then [] else ds)

/-- Modelled from the spec (§4.1, claim C1): the ordered fallback chain for
`passToken` exactly as the specification words it — the cookie mapping
entry `"passToken"` if present and non-empty; else the cookie mapping
entry `"serviceToken"` if present and non-empty; else the session
`serviceToken` field value; else the empty string. -/
def passTokenSpecChain (s : MiSession) : String :=
  let c₁ : String :=
    match s.cookies with
    | some m => (dictGet m "passToken").getD ""
    | none => ""
  let c₂ : String :=
    match s.cookies with
    | some m => (dictGet m "serviceToken").getD ""
    | none => ""
  if c₁ ≠ "" then c₁ else if c₂ ≠ "" then c₂ else s.service_token.getD ""

/-- Post-processing of the device-listing call: a fault is swallowed into
`[]`, a `None` or empty list becomes `[]`, a non-empty list is returned. -/
def devicesResult : DevicesOutcome → Except String (List Device)
  | .fault _ => .ok []
  | .ok none => .ok []
  | .ok (some ds) => .ok (if ds = [] then [] else ds)

theorem dictGet_loginTokenData_userId (s : MiSession) :
    dictGet (loginTokenData s) "userId" = some (pyStrOfUserId s.user_id) := rfl

theorem dictGet_loginTokenData_passToken (s : MiSession) :
    dictGet (loginTokenData s) "passToken"
      = some (strOrEmpty (derivePassToken s)) := rfl

theorem dictGet_loginTokenData_ssecurity (s : MiSession) :
    dictGet (loginTokenData s) "ssecurity" = some (strOrEmpty s.ssecurity) := rfl

theorem dictGet_loginTokenData_serviceToken (s : MiSession) :
    dictGet (loginTokenData s) "serviceToken"
      = some (strOrEmpty s.service_token) := rfl

/-- C1: for every successful login session, the `passToken` entry of the
returned token record equals the value of the ordered fallback chain of
the spec: the cookie `"passToken"` value if present and non-empty, else
the cookie `"serviceToken"` value if present and non-empty, else the
session `serviceToken` field value, else the empty string. -/
theorem login_passToken_fallback_chain (s : MiSession) :
    dictGet (loginTokenData s) "passToken" = some (passTokenSpecChain s) := by
  rw [dictGet_loginTokenData_passToken]
  rcases s with ⟨u, st, ss, ck⟩
  congr 1
  cases ck with
  | none =>
    rcases st with _ | t
    · rfl
    · by_cases ht : t = "" <;>
        simp [derivePassToken, passTokenSpecChain, strOrEmpty, optTruthy, ht]
  | some m =>
    rcases hp : dictGet m "passToken" with _ | v
    · rcases hq : dictGet m "serviceToken" with _ | w
      · rcases st with _ | t
        · simp [derivePassToken, passTokenSpecChain, strOrEmpty, optTruthy,
            pyOrStr, hp, hq]
        · by_cases ht : t = "" <;>
            simp [derivePassToken, passTokenSpecChain, strOrEmpty, optTruthy,
              pyOrStr, hp, hq, ht]
      · by_cases hw : w = ""
        · rcases st with _ | t
          · simp [derivePassToken, passTokenSpecChain, strOrEmpty, optTruthy,
              pyOrStr, hp, hq, hw]
          · by_cases ht : t = "" <;>
              simp [derivePassToken, passTokenSpecChain, strOrEmpty, optTruthy,
                pyOrStr, hp, hq, hw, ht]
        · simp [derivePassToken, passTokenSpecChain, strOrEmpty, optTruthy,
            pyOrStr, hp, hq, hw]
    · by_cases hv : v = ""
      · rcases hq : dictGet m "serviceToken" with _ | w
        · rcases st with _ | t
          · simp [derivePassToken, passTokenSpecChain, strOrEmpty, optTruthy,
              pyOrStr, hp, hq, hv]
          · by_cases ht : t = "" <;>
              simp [derivePassToken, passTokenSpecChain, strOrEmpty, optTruthy,
                pyOrStr, hp, hq, hv, ht]
        · by_cases hw : w = ""
          · rcases st with _ | t
            · simp [derivePassToken, passTokenSpecChain, strOrEmpty, optTruthy,
                pyOrStr, hp, hq, hv, hw]
            · by_cases ht : t = "" <;>
                simp [derivePassToken, passTokenSpecChain, strOrEmpty, optTruthy,
                  pyOrStr, hp, hq, hv, hw, ht]
          · simp [derivePassToken, passTokenSpecChain, strOrEmpty, optTruthy,
              pyOrStr, hp, hq, hv, hw]
      · simp [derivePassToken, passTokenSpecChain, strOrEmpty, optTruthy,
          pyOrStr, hp, hv]

theorem strOrEmpty_ne_empty_iff (x : Option String) :
    strOrEmpty x ≠ "" ↔ optTruthy x = true := by
  rcases x with _ | v
  · simp [strOrEmpty, optTruthy]
  · by_cases hv : v = "" <;> simp [strOrEmpty, optTruthy, hv]

theorem derivePassToken_truthy (s : MiSession)
    (h : optTruthy s.service_token = true) :
    optTruthy (derivePassToken s) = true := by
  unfold derivePassToken
  by_cases hfc : optTruthy (match s.cookies with
      | some m => pyOrStr (dictGet m "passToken") (dictGet m "serviceToken")
      | none => none) = true
  · simp [hfc]
  · simpa [hfc]

/-- C2: for every successful login session, the returned token record has
all four keys `userId`, `passToken`, `ssecurity` and `serviceToken`
present with string values, and an absent provider field is normalized to
the empty string, never omitted. -/
theorem login_tokenData_fully_populated (s : MiSession) :
    (∃ v : String, dictGet (loginTokenData s) "userId" = some v) ∧
    (∃ v : String, dictGet (loginTokenData s) "passToken" = some v) ∧
    (∃ v : String, dictGet (loginTokenData s) "ssecurity" = some v) ∧
    (∃ v : String, dictGet (loginTokenData s) "serviceToken" = some v) ∧
    (s.user_id = none → dictGet (loginTokenData s) "userId" = some "") ∧
    (s.ssecurity = none → dictGet (loginTokenData s) "ssecurity" = some "") ∧
    (s.service_token = none →
      dictGet (loginTokenData s) "serviceToken" = some "") := by
  refine ⟨⟨_, dictGet_loginTokenData_userId s⟩,
    ⟨_, dictGet_loginTokenData_passToken s⟩,
    ⟨_, dictGet_loginTokenData_ssecurity s⟩,
    ⟨_, dictGet_loginTokenData_serviceToken s⟩, ?_, ?_, ?_⟩
  · intro h; rw [dictGet_loginTokenData_userId, h]; rfl
  · intro h; rw [dictGet_loginTokenData_ssecurity, h]; rfl
  · intro h; rw [dictGet_loginTokenData_serviceToken, h]; rfl

/-- Witness for C2 at the all-absent session: every key is present and the
absent fields normalize to the empty string. -/
theorem login_tokenData_fully_populated_witness :
    (∃ v : String,
      dictGet (loginTokenData ⟨none, none, none, none⟩) "passToken" = some v) ∧
    dictGet (loginTokenData ⟨none, none, none, none⟩) "userId" = some "" ∧
    dictGet (loginTokenData ⟨none, none, none, none⟩) "ssecurity" = some "" ∧
    dictGet (loginTokenData ⟨none, none, none, none⟩) "serviceToken"
      = some "" := by
  have h := login_tokenData_fully_populated ⟨none, none, none, none⟩
  exact ⟨h.2.1, h.2.2.2.2.1 rfl, h.2.2.2.2.2.1 rfl, h.2.2.2.2.2.2 rfl⟩

/-- C3: for every successful login session, if the `serviceToken` entry of
the returned token record is non-empty then the `passToken` entry is also
non-empty (the fallback invariant). -/
theorem login_serviceToken_nonempty_implies_passToken_nonempty
    (s : MiSession) (t : String)
    (hst : dictGet (loginTokenData s) "serviceToken" = some t)
    (ht : t ≠ "") :
    ∃ p : String,
      dictGet (loginTokenData s) "passToken" = some p ∧ p ≠ "" := by
  rw [dictGet_loginTokenData_serviceToken] at hst
  have h1 : strOrEmpty s.service_token ≠ "" := by
    injection hst with h; rw [h]; exact ht
  have h2 := derivePassToken_truthy s ((strOrEmpty_ne_empty_iff _).mp h1)
  exact ⟨strOrEmpty (derivePassToken s), dictGet_loginTokenData_passToken s,
    (strOrEmpty_ne_empty_iff _).mpr h2⟩

/-- Witness for C3 at a session whose `serviceToken` field is `"svc"` and
which exposes no cookie mapping. -/
theorem login_serviceToken_nonempty_implies_passToken_nonempty_witness :
    ∃ p : String,
      dictGet (loginTokenData ⟨some 1, some "svc", some "sec", none⟩)
          "passToken" = some p ∧ p ≠ "" :=
  login_serviceToken_nonempty_implies_passToken_nonempty
    ⟨some 1, some "svc", some "sec", none⟩ "svc" rfl (by decide)

/-- C6: for every login call where the provider login produced no usable
session (a falsy result), the caller receives the login-failed error and
no token record is produced. -/
theorem login_noResult_gives_LoginFailed (a : XiaomiAuth) :
    (a.login .noResult).2 = .error "Login failed - no result returned" ∧
    ∀ td : List (String × String), (a.login .noResult).2 ≠ .ok td :=
  ⟨rfl, fun _ h => nomatch h⟩

/-- C8: for every provider fault raised during the login handshake, the
fault is propagated unchanged to the caller: the resulting error carries
exactly the raised fault. -/
theorem login_fault_propagates_unchanged (a : XiaomiAuth) (msg : String) :
    (a.login (.fault msg)).2 = .error msg := rfl

theorem get_devices_logged_in (a : XiaomiAuth) (country : Option String)
    (prov : String → DevicesOutcome) (h : a.mc = some ()) :
    a.get_devices country prov
      = devicesResult (prov (resolveCountry country a.region)) := by
  unfold XiaomiAuth.get_devices
  rw [h]
  rcases hpc : prov (resolveCountry country a.region) with msg | _ | ds <;>
    rfl

/-- C4: for every `get_devices` call on a logged-in instance, if the
provider either raises a fault or reports no devices (a `None` or empty
list) — whatever country it is queried with — the call returns the empty
list, so the fault and no-devices cases are indistinguishable to the
caller and device-listing errors are never propagated. -/
theorem get_devices_fault_or_no_devices_empty (a : XiaomiAuth)
    (country : Option String) (prov : String → DevicesOutcome)
    (h : a.mc = some ())
    (hp : ∀ c : String, (∃ msg, prov c = .fault msg) ∨
      prov c = .ok none ∨ prov c = .ok (some [])) :
    a.get_devices country prov = .ok [] := by
  rw [get_devices_logged_in a country prov h]
  rcases hp (resolveCountry country a.region) with ⟨msg, hm⟩ | hm | hm <;>
    simp [hm, devicesResult]

/-- Witness for C4: a logged-in instance whose provider always faults, and
one whose provider always reports no devices, both yield the empty list. -/
theorem get_devices_fault_or_no_devices_empty_witness :
    XiaomiAuth.get_devices ⟨"u", "p", "cn", some ()⟩ none
        (fun _ => .fault "boom") = .ok [] ∧
    XiaomiAuth.get_devices ⟨"u", "p", "cn", some ()⟩ none
        (fun _ => .ok none) = .ok [] :=
  ⟨get_devices_fault_or_no_devices_empty ⟨"u", "p", "cn", some ()⟩ none
      (fun _ => .fault "boom") rfl (fun _ => Or.inl ⟨"boom", rfl⟩),
    get_devices_fault_or_no_devices_empty ⟨"u", "p", "cn", some ()⟩ none
      (fun _ => .ok none) rfl (fun _ => Or.inr (Or.inl rfl))⟩

/-- Counterexample to C5: on a fresh instance, a login attempt that fails
(the provider returned no usable session, so the caller got the
login-failed error and no successful login completed) still leaves the
instance considered logged in, and a subsequent `get_devices` performs
device retrieval and returns devices instead of surfacing the
not-logged-in error. -/
theorem get_devices_after_failed_login_not_guarded :
    ((XiaomiAuth.init "user" "pw" "cn").login .noResult).2
        = .error "Login failed - no result returned" ∧
    XiaomiAuth.get_devices ((XiaomiAuth.init "user" "pw" "cn").login
        .noResult).1 none (fun _ => .ok (some ["dev1"]))
      = .ok ["dev1"] :=
  ⟨rfl, rfl⟩

/-- C5 as amended: `get_devices` surfaces the not-logged-in error exactly
when no login attempt has ever been made on the instance (`mc` unset);
any login call — fault, failure or success — sets `mc`, so after an
unsuccessful login attempt `get_devices` proceeds to device retrieval
instead of raising. -/
theorem get_devices_unauthenticated_guard (a : XiaomiAuth)
    (country : Option String) (prov : String → DevicesOutcome) :
    (a.mc = none →
      a.get_devices country prov = .error "Not logged in - call login() first") ∧
    (∀ outcome : LoginOutcome, ((a.login outcome).1).mc = some ()) := by
  constructor
  · intro h
    unfold XiaomiAuth.get_devices
    rw [h]
  · intro outcome
    cases outcome <;> rfl

/-- Witness for C5 as amended: a fresh instance is guarded, and an
instance after a failed login attempt has `mc` set. -/
theorem get_devices_unauthenticated_guard_witness :
    XiaomiAuth.get_devices (XiaomiAuth.init "u" "p" "cn") none
        (fun _ => .ok none) = .error "Not logged in - call login() first" ∧
    ((XiaomiAuth.init "u" "p" "cn").login .noResult).1.mc = some () :=
  ⟨(get_devices_unauthenticated_guard (XiaomiAuth.init "u" "p" "cn") none
      (fun _ => .ok none)).1 rfl,
    (get_devices_unauthenticated_guard (XiaomiAuth.init "u" "p" "cn") none
      (fun _ => .ok none)).2 .noResult⟩

/-- Counterexample to C7: a session whose `userId` is present but zero.
The claim says the `userId` entry equals the string conversion `"0"` and
is empty exactly when the session `userId` is absent/null; the code uses
truthiness, so the entry is the empty string although the `userId` is
present and its string form is `"0"`. -/
theorem login_userId_zero_counterexample :
    dictGet (loginTokenData ⟨some 0, none, none, none⟩) "userId" = some "" ∧
    toString (0 : Int) = "0" ∧
    ("" : String) ≠ "0" ∧
    (some (0 : Int)) ≠ (none : Option Int) :=
  ⟨rfl, rfl, by decide, by decide⟩

/-- C7 as amended: the `userId` entry of the returned token record equals
the string conversion of the session `userId` when that is present and
non-zero, and equals the empty string when the session `userId` is
absent/null or zero (a falsy value). -/
theorem login_userId_amended (s : MiSession) :
    (∀ n : Int, s.user_id = some n → n ≠ 0 →
      dictGet (loginTokenData s) "userId" = some (toString n)) ∧
    (s.user_id = none ∨ s.user_id = some 0 →
      dictGet (loginTokenData s) "userId" = some "") := by
  constructor
  · intro n hn h0
    rw [dictGet_loginTokenData_userId, hn]
    simp [pyStrOfUserId, h0]
  · rintro (h | h) <;> rw [dictGet_loginTokenData_userId, h] <;>
      simp [pyStrOfUserId]

/-- Witness for C7 as amended, at the spec scenario session with
`userId = 12345` and at the all-absent session. -/
theorem login_userId_amended_witness :
    dictGet (loginTokenData ⟨some 12345, some "svc-abc", some "sec-xyz",
        some [("passToken", "cookie-pt")]⟩) "userId"
      = some (toString (12345 : Int)) ∧
    dictGet (loginTokenData ⟨none, none, none, none⟩) "userId" = some "" :=
  ⟨(login_userId_amended _).1 12345 rfl (by decide),
    (login_userId_amended _).2 (Or.inl rfl)⟩

/-- Counterexample to C9: on a logged-in instance with region `"cn"`, a
supplied empty-string country argument is not used for the listing — the
provider is queried with the region `"cn"` instead of the supplied
value. -/
theorem get_devices_empty_country_counterexample :
    XiaomiAuth.get_devices ⟨"u", "p", "cn", some ()⟩ (some "")
        (fun c => .ok (some [c])) = .ok ["cn"] ∧
    ("cn" : String) ≠ "" :=
  ⟨rfl, by decide⟩

/-- C9 as amended: on a logged-in instance, device listing is performed
with the supplied country when it is non-empty; an absent or empty-string
country argument falls back to the region stored at construction time. -/
theorem get_devices_country_amended (a : XiaomiAuth)
    (prov : String → DevicesOutcome) (c : String)
    (h : a.mc = some ()) (hc : c ≠ "") :
    a.get_devices (some c) prov = devicesResult (prov c) ∧
    a.get_devices none prov = devicesResult (prov a.region) ∧
    a.get_devices (some "") prov = devicesResult (prov a.region) := by
  refine ⟨?_, ?_, ?_⟩
  · rw [get_devices_logged_in a (some c) prov h]
    simp [resolveCountry, hc]
  · rw [get_devices_logged_in a none prov h]
    rfl
  · rw [get_devices_logged_in a (some "") prov h]
    simp [resolveCountry]

/-- Witness for C9 as amended, with the provider echoing the country it
was queried with. -/
theorem get_devices_country_amended_witness :
    XiaomiAuth.get_devices ⟨"u", "p", "de", some ()⟩ (some "us")
        (fun c => .ok (some [c]))
      = devicesResult ((fun c => .ok (some [c])) "us") ∧
    XiaomiAuth.get_devices ⟨"u", "p", "de", some ()⟩ none
        (fun c => .ok (some [c]))
      = devicesResult ((fun c => .ok (some [c]))
          (XiaomiAuth.region ⟨"u", "p", "de", some ()⟩)) ∧
    XiaomiAuth.get_devices ⟨"u", "p", "de", some ()⟩ (some "")
        (fun c => .ok (some [c]))
      = devicesResult ((fun c => .ok (some [c]))
          (XiaomiAuth.region ⟨"u", "p", "de", some ()⟩)) :=
  get_devices_country_amended ⟨"u", "p", "de", some ()⟩
    (fun c => .ok (some [c])) "us" rfl (by decide)

/-- Counterexample to C10: a session whose `serviceToken` field is empty
and whose cookie mapping has a non-empty `"serviceToken"` entry `"st"`,
but also a non-empty `"passToken"` entry `"pt"`.  The record has
`serviceToken = ""` as claimed, but `passToken` is the cookie `passToken`
value `"pt"`, not the cookie `serviceToken` value `"st"`. -/
theorem login_passToken_cookie_shadowing_counterexample :
    dictGet [("passToken", "pt"), ("serviceToken", "st")] "serviceToken"
      = some "st" ∧
    ("st" : String) ≠ "" ∧
    dictGet (loginTokenData ⟨some 1, some "", some "sec",
        some [("passToken", "pt"), ("serviceToken", "st")]⟩) "serviceToken"
      = some "" ∧
    dictGet (loginTokenData ⟨some 1, some "", some "sec",
        some [("passToken", "pt"), ("serviceToken", "st")]⟩) "passToken"
      = some "pt" ∧
    ("pt" : String) ≠ "st" :=
  ⟨rfl, by decide, rfl, rfl, by decide⟩

/-- C10 as amended: for every successful login session whose
`serviceToken` field is absent/empty, whose cookie mapping has no
non-empty `"passToken"` entry but has a non-empty `"serviceToken"` entry,
the returned record has `serviceToken` equal to the empty string while
`passToken` equals that non-empty cookie value — so `passToken` non-empty
does not imply `serviceToken` non-empty. -/
theorem login_passToken_from_cookie_serviceToken (s : MiSession)
    (m : List (String × String)) (v : String)
    (hck : s.cookies = some m)
    (hst : s.service_token = none ∨ s.service_token = some "")
    (hv : dictGet m "serviceToken" = some v) (hvne : v ≠ "")
    (hpt : dictGet m "passToken" = none ∨ dictGet m "passToken" = some "") :
    dictGet (loginTokenData s) "serviceToken" = some "" ∧
    dictGet (loginTokenData s) "passToken" = some v := by
  constructor
  · rw [dictGet_loginTokenData_serviceToken]
    rcases hst with h | h <;> rw [h] <;> rfl
  · rw [dictGet_loginTokenData_passToken]
    rcases hpt with h | h <;>
      simp [derivePassToken, hck, pyOrStr, optTruthy, strOrEmpty, h, hv, hvne]

/-- Witness for C10 as amended, at a session whose only cookie is a
non-empty `"serviceToken"` entry and whose `serviceToken` field is
absent. -/
theorem login_passToken_from_cookie_serviceToken_witness :
    dictGet (loginTokenData ⟨some 1, none, none,
        some [("serviceToken", "st")]⟩) "serviceToken" = some "" ∧
    dictGet (loginTokenData ⟨some 1, none, none,
        some [("serviceToken", "st")]⟩) "passToken" = some "st" :=
  login_passToken_from_cookie_serviceToken _ [("serviceToken", "st")] "st"
    rfl (Or.inl rfl) rfl (by decide) (Or.inl rfl)
